import Mathlib

/-!
Verification development for the `mcp-revised` browser client
(`frontend/script.js`, `test-scenarios.js`, the gateway UI script and the
probe shell script).  JavaScript values and control flow are shallowly
embedded: dynamic JSON data becomes `JsonVal`, `fetch` responses become
explicit records, browser event handlers become a step function on an
explicit state record, and the sequenced `await`s of each handler are
modelled atomically (every handler in the source mutates state only after
its last `await`, so any event-loop interleaving is equivalent to some
serialization of whole handlers).
-/

namespace MCPRevised

/-- A JSON value as produced by the browser's `JSON.parse`. -/
inductive JsonVal where
  | null
  | bool (b : Bool)
  | num (q : Rat)
  | str (s : String)
  | arr (elems : List JsonVal)
  | obj (fields : List (String × JsonVal))

/-- JavaScript truthiness of a parsed JSON value (`!result` in the source):
`null`, `false`, `0` and `""` are falsy, arrays and objects are truthy. -/
def jsTruthy : JsonVal → Bool
  | .null => false
  | .bool b => b
  | .num q => q != 0
  | .str s => s != ""
  | .arr _ => true
  | .obj _ => true

/-- JavaScript `s.includes(sub)`: substring containment. -/
def jsIncludes (s sub : String) : Bool :=
  decide (sub.toList <:+: s.toList)

/-- JavaScript `s.toLowerCase()` on the ASCII tool names the source feeds it. -/
def jsToLowerCase (s : String) : String :=
  ⟨s.data.map Char.toLower⟩

/-- JavaScript `s.startsWith(pre)`. -/
def jsStartsWith (s pre : String) : Bool :=
  pre.data.isPrefixOf s.data

/-- JavaScript `s.substring(n)`: drop the first `n` characters. -/
def jsSubstringFrom (s : String) (n : Nat) : String :=
  ⟨s.data.drop n⟩

/-- Worker for `jsSplit`: accumulate the current segment (reversed) while
scanning for the separator. -/
def jsSplitAux (sep : Char) : List Char → List Char → List String
  | [], acc => [String.mk acc.reverse]
  | c :: cs, acc =>
    if c = sep then String.mk acc.reverse :: jsSplitAux sep cs []
    else jsSplitAux sep cs (c :: acc)

/-- JavaScript `s.split(sep)` for a one-character separator, as in
`text.split('\n')`: every segment is kept, including empty ones. -/
def jsSplit (s : String) (sep : Char) : List String :=
  jsSplitAux sep s.data []

/-- JavaScript truthiness of a possibly-absent string
(`if (this.sessionId)` style checks): absent and `""` are falsy. -/
def jsTruthyStr : Option String → Bool
  | none => false
  | some s => s != ""

/-- A tool descriptor as delivered by `tools/list` and consumed by the UI:
a name, an optional description and an optional parameter schema.  The
modelled operations inspect only the name. -/
structure Tool where
  name : String
  description : Option String := none
  inputSchema : Option JsonVal := none

/-- The categorized tool cache built by `MCPGatewayUI.parseTools`. -/
structure Categorized where
  sheets : List Tool
  slides : List Tool
  whatsapp : List Tool
  forms : List Tool

/-- The empty categorized record (`{ sheets: [], slides: [], whatsapp: [], forms: [] }`). -/
def Categorized.empty : Categorized := ⟨[], [], [], []⟩

/-- One iteration of the `tools.forEach` loop in `MCPGatewayUI.parseTools`:
the lowercased name is tested against the branch conditions in source
order and the tool is pushed onto the first matching category. -/
def categorize (acc : Categorized) (tool : Tool) : Categorized :=
  let name := jsToLowerCase tool.name
  if jsIncludes name "sheets" || jsIncludes name "gs_" then
    { acc with sheets := acc.sheets ++ [tool] }
  else if jsIncludes name "slides" || jsIncludes name "gs_" then
    { acc with slides := acc.slides ++ [tool] }
  else if jsIncludes name "whatsapp" || jsIncludes name "wa_" then
    { acc with whatsapp := acc.whatsapp ++ [tool] }
  else if jsIncludes name "forms" || jsIncludes name "gf_" then
    { acc with forms := acc.forms ++ [tool] }
  else acc

/-- `MCPGatewayUI.parseTools`: fold the `forEach` loop over the tool list,
starting from the empty categorized object literal. -/
def parseTools (tools : List Tool) : Categorized :=
  tools.foldl categorize Categorized.empty

/-- The four categories of the tool cache. -/
inductive Cat where
  | sheets | slides | whatsapp | forms
deriving DecidableEq, Repr

/-- The category the `parseTools` branch chain assigns to a tool
(`none` when no branch condition matches, in which case the tool is
dropped). -/
def categoryOf (tool : Tool) : Option Cat :=
  let name := jsToLowerCase tool.name
  if jsIncludes name "sheets" || jsIncludes name "gs_" then some .sheets
  else if jsIncludes name "slides" || jsIncludes name "gs_" then some .slides
  else if jsIncludes name "whatsapp" || jsIncludes name "wa_" then some .whatsapp
  else if jsIncludes name "forms" || jsIncludes name "gf_" then some .forms
  else none

/-- `MCPGatewayUI.parseParameterValue`, parameterized by the browser
primitives it calls: `jsonParse` is `JSON.parse` (`none` models a thrown
`SyntaxError`) and `toNum` is `Number` coercion (`none` models `NaN`, so
`!isNaN(value)` is `(toNum value).isSome`).  The source first tries JSON
for values starting with a bracket or brace, then `Number`, then the
boolean literals, and otherwise returns the string unchanged. -/
def parseParameterValue (jsonParse : String → Option JsonVal)
    (toNum : String → Option Rat) (value : String) : JsonVal :=
  if jsStartsWith value "[" || jsStartsWith value "\x7b" then
    match jsonParse value with
    | some v => v
    | none => .str value
  else if (toNum value).isSome && value != "" then
    .num ((toNum value).getD 0)
  else if value == "true" then .bool true
  else if value == "false" then .bool false
  else .str value

/-- The behaviour claimed in the specification for `parseParameterValue`,
written from its words: a value starting with a bracket or brace is
returned as its JSON parse with the raw string as fallback; otherwise any
non-empty string accepted by `Number` is converted to a number; otherwise
the exact strings `true` and `false` become booleans; every other string
is returned unchanged. -/
def parseParameterValueSpec (jsonParse : String → Option JsonVal)
    (toNum : String → Option Rat) (value : String) : JsonVal :=
  if jsStartsWith value "[" || jsStartsWith value "\x7b" then
    (jsonParse value).getD (.str value)
  else if value != "" && (toNum value).isSome then
    .num ((toNum value).getD 0)
  else if value == "true" then .bool true
  else if value == "false" then .bool false
  else .str value

/-- An HTTP response as seen through `fetch` by `MCPGatewayUI.makeRequest`:
the `ok` flag, status line, the response headers (lowercased names, as
`response.headers.entries()` yields them) and the body text. -/
structure HttpResponse where
  ok : Bool
  status : Nat
  statusText : String
  headers : List (String × String)
  body : String

/-- The `for (const line of lines)` loop of `MCPGatewayUI.makeRequest`:
walk the lines, and at each line starting with `data: ` try to parse the
rest; the first successful parse is kept (`break`), a failed parse falls
through to the next line. -/
def firstDataParse (parse : String → Option JsonVal) : List String → Option JsonVal
  | [] => none
  | line :: rest =>
    if jsStartsWith line "data: " then
      match parse (jsSubstringFrom line 6) with
      | some v => some v
      | none => firstDataParse parse rest
    else firstDataParse parse rest

/-- The response half of `MCPGatewayUI.makeRequest`, parameterized by the
browser's `JSON.parse`.  A non-`ok` status throws `HTTP <status>:
<statusText>` before the body is read; otherwise the body is split on
newlines, the loop extracts the first parsable `data: ` line, and a
missing or falsy (`!result`) value throws `Invalid response format`.
On success the parsed value is returned together with the response
headers. -/
def makeRequest (parse : String → Option JsonVal) (response : HttpResponse) :
    Except String (JsonVal × List (String × String)) :=
  if !response.ok then
    .error ("HTTP " ++ toString response.status ++ ": " ++ response.statusText)
  else
    match firstDataParse parse (jsSplit response.body '\n') with
    | some v =>
      if jsTruthy v then .ok (v, response.headers)
      else .error "Invalid response format"
    | none => .error "Invalid response format"

namespace MCPChat

/-- The connection-relevant fields of the `MCPChatInterface` constructor in
`frontend/script.js`: `maxReconnectAttempts` is initialized to `5` and
`reconnectDelay` to `1000`. -/
structure ChatState where
  isConnected : Bool
  reconnectAttempts : Nat
  maxReconnectAttempts : Nat
  reconnectDelay : Nat
  authToken : Option String

/-- `MCPChatInterface.attemptReconnect` (frontend/script.js): when fewer
than `maxReconnectAttempts` attempts have been made and an auth token is
present, the counter is incremented and a call to `connect` is scheduled
after `reconnectDelay * reconnectAttempts` milliseconds (using the
incremented counter); otherwise the client gives up and shows a failure
message.  The second component is the scheduled delay, `none` when no
reconnect is scheduled. -/
def attemptReconnect (st : ChatState) : ChatState × Option Nat :=
  if st.reconnectAttempts < st.maxReconnectAttempts && jsTruthyStr st.authToken then
    let st := { st with reconnectAttempts := st.reconnectAttempts + 1 }
    (st, some (st.reconnectDelay * st.reconnectAttempts))
  else
    (st, none)

/-- The `ws.onclose` handler of `MCPChatInterface.connect`
(frontend/script.js): the connected flag is cleared; close code `1008`
resets authentication; any other abnormal close with a token present
calls `handleDisconnect` (which drops the token); otherwise
`attemptReconnect` runs. -/
def onClose (st0 : ChatState) (code : Nat) : ChatState × Option Nat :=
  let st := { st0 with isConnected := false }
  if code == 1008 then
    ({ st with authToken := none }, none)
  else if jsTruthyStr st.authToken && code != 1000 then
    ({ st with authToken := none }, none)
  else
    attemptReconnect st

/-- The `catch` branch of `MCPChatInterface.connect`
(frontend/script.js): a failed connection attempt falls through to
`attemptReconnect`. -/
def connectFailure (st : ChatState) : ChatState × Option Nat :=
  attemptReconnect st

end MCPChat

/-- The message kinds of `MCPGatewayUI.addMessage`. -/
inductive MsgType where
  | system | request | response | error
deriving DecidableEq, Repr

/-- A rendered message body: plain text, or a JSON value shown through
`JSON.stringify`. -/
inductive MsgBody where
  | text (s : String)
  | json (v : JsonVal)

/-- One chat-log entry produced by `MCPGatewayUI.addMessage`. -/
structure LogMsg where
  type : MsgType
  header : String
  body : MsgBody

/-- `MCPGatewayUI.addSystemMessage`. -/
def sysMsg (m : String) : LogMsg := ⟨.system, "System", .text m⟩

/-- `MCPGatewayUI.addErrorMessage`. -/
def errMsg (m : String) : LogMsg := ⟨.error, "Error", .text m⟩

/-- `MCPGatewayUI.addRequestMessage`; the body is the stringified
parameter object. -/
def reqMsg (toolName paramsStr : String) : LogMsg :=
  ⟨.request, "Request: " ++ toolName, .text paramsStr⟩

/-- `MCPGatewayUI.addResponseMessage`. -/
def respMsg (toolName : String) (result : JsonVal) : LogMsg :=
  ⟨.response, "Response: " ++ toolName, .json result⟩

/-- The mutable fields of `MCPGatewayUI` relevant to connection and tool
state, plus the rendered tool sidebar (`domTools`, filled by
`populateToolsList` and emptied by `clearToolsList`) and the chat log.
`availableTools = none` models the bare `{}` object literal the
constructor and `disconnect` assign. -/
structure UIState where
  sessionId : Option String
  isConnected : Bool
  availableTools : Option Categorized
  currentTool : Option Tool
  domTools : List Tool
  log : List LogMsg

/-- The state set up by the `MCPGatewayUI` constructor. -/
def initState : UIState :=
  { sessionId := none, isConnected := false, availableTools := none,
    currentTool := none, domTools := [], log := [] }

/-- `this.protocolVersion` from the `MCPGatewayUI` constructor. -/
def protocolVersion : String := "2025-06-18"

/-- The header object built by `MCPGatewayUI.makeRequest`: the three fixed
headers, plus `Mcp-Session-Id` exactly when `this.sessionId` is truthy at
the time of the call. -/
def requestHeaders (sessionId : Option String) : List (String × String) :=
  let headers := [("Content-Type", "application/json"),
                  ("Accept", "application/json,text/event-stream"),
                  ("MCP-Protocol-Version", protocolVersion)]
  if jsTruthyStr sessionId then
    headers ++ [("Mcp-Session-Id", sessionId.getD "")]
  else headers

/-- One JSON-RPC request POSTed by `makeRequest`, instrumented with the
value `this.sessionId` held when it was issued. -/
structure IssuedRequest where
  method : String
  headers : List (String × String)
  sessionAtIssue : Option String
deriving DecidableEq, Repr

/-- Issue one `makeRequest` call from a given state. -/
def issue (st : UIState) (method : String) : IssuedRequest :=
  ⟨method, requestHeaders st.sessionId, st.sessionId⟩

/-- The server-side outcomes of the three `makeRequest` calls inside
`MCPGatewayUI.connect`: for `initialize` the returned response headers
(lowercased by `fetch`), for `tools/list` the decoded
`result?.tools` field; `Except.error` models a throw from `makeRequest`. -/
structure ConnectEnv where
  initOutcome : Except String (List (String × String))
  notifOutcome : Except String Unit
  toolsOutcome : Except String (Option (List Tool))

/-- `MCPGatewayUI.connect`: initialize, send the initialized
notification, list tools, and only then assign `sessionId`,
`availableTools` and `isConnected`; any throw is caught and logged as a
`Connection failed` error message, leaving the fields untouched.  The
second component lists the requests issued, each carrying the headers
built from the `sessionId` current at its issue time. -/
def connect (st : UIState) (env : ConnectEnv) : UIState × List IssuedRequest :=
  let r1 := issue st "initialize"
  match env.initOutcome with
  | .error e => ({ st with log := st.log ++ [errMsg ("Connection failed: " ++ e)] }, [r1])
  | .ok initHeaders =>
    let r2 := issue st "notifications/initialized"
    match env.notifOutcome with
    | .error e => ({ st with log := st.log ++ [errMsg ("Connection failed: " ++ e)] }, [r1, r2])
    | .ok _ =>
      let r3 := issue st "tools/list"
      match env.toolsOutcome with
      | .error e => ({ st with log := st.log ++ [errMsg ("Connection failed: " ++ e)] }, [r1, r2, r3])
      | .ok toolsOpt =>
        let cat := parseTools (toolsOpt.getD [])
        ({ st with
            sessionId := initHeaders.lookup "mcp-session-id",
            availableTools := some cat,
            isConnected := true,
            domTools := cat.sheets ++ cat.slides ++ cat.whatsapp ++ cat.forms,
            log := st.log ++ [sysMsg "Successfully connected to MCP Gateway!"] },
         [r1, r2, r3])

/-- `MCPGatewayUI.disconnect`: null out the session, flags and caches and
clear the tool sidebar. -/
def disconnect (st : UIState) : UIState :=
  { st with sessionId := none, isConnected := false, availableTools := none,
            currentTool := none, domTools := [],
            log := st.log ++ [sysMsg "Disconnected from MCP Gateway"] }

/-- `MCPGatewayUI.selectTool` triggered by clicking the `i`-th rendered
tool item. -/
def selectTool (st : UIState) (i : Nat) : UIState :=
  match st.domTools[i]? with
  | some t => { st with currentTool := some t }
  | none => st

/-- `MCPGatewayUI.executeCurrentTool`: with no tool selected only an error
is logged; otherwise the request message is logged, one `tools/call` is
issued, and the outcome is logged as a response message or caught and
logged as a `Tool execution failed` error message.  `paramsStr` is the
stringified parameter object built from the form. -/
def executeCurrentTool (st : UIState) (paramsStr : String)
    (outcome : Except String JsonVal) : UIState × List IssuedRequest :=
  match st.currentTool with
  | none => ({ st with log := st.log ++ [errMsg "No tool selected"] }, [])
  | some tool =>
    let st1 := { st with log := st.log ++ [reqMsg tool.name paramsStr] }
    let r := issue st1 "tools/call"
    match outcome with
    | .ok result =>
      ({ st1 with log := st1.log ++ [respMsg tool.name result] }, [r])
    | .error e =>
      ({ st1 with log := st1.log ++ [errMsg ("Tool execution failed: " ++ e)] }, [r])

/-- The headers sent on the `notifications/initialized` and `tools/list`
probe requests in `src/mcp_route_probe_test.sh`, which pass the captured
session id on every call after `initialize`. -/
def probeFollowupHeaders (proto session : String) : List (String × String) :=
  [("Content-Type", "application/json"),
   ("Accept", "application/json,text/event-stream"),
   ("MCP-Protocol-Version", proto),
   ("Mcp-Session-Id", session)]

namespace TestRunner

/-- One canned test from `frontend/test-scenarios.js`. -/
structure TestCase where
  name : String
  tool : String
  description : String
  parameters : List (String × JsonVal)

/-- The `sheets` array of `testScenarios` in `frontend/test-scenarios.js`. -/
def sheetsTests : List TestCase :=
  [⟨"Create Spreadsheet", "google_sheets_mcp_gs_create_spreadsheet",
    "Create a new Google Spreadsheet",
    [("title", .str "MCP Test Spreadsheet")]⟩,
   ⟨"Get Values", "google_sheets_mcp_gs_values_get",
    "Read values from a spreadsheet range",
    [("spreadsheet_id", .str "1Yid5t5iBOljim_uBvovyllctO9nlKUURtSeMnEwaMC8"),
     ("range_a1", .str "A1:C3"),
     ("value_render_option", .str "UNFORMATTED_VALUE")]⟩,
   ⟨"Update Values", "google_sheets_mcp_gs_values_update",
    "Update values in a spreadsheet range",
    [("spreadsheet_id", .str "1Yid5t5iBOljim_uBvovyllctO9nlKUURtSeMnEwaMC8"),
     ("range_a1", .str "A1:B2"),
     ("values", .arr [.arr [.str "Name", .str "Age"], .arr [.str "Aman", .str "25"]]),
     ("value_input_option", .str "USER_ENTERED")]⟩,
   ⟨"Append Values", "google_sheets_mcp_gs_values_append",
    "Append new rows to a spreadsheet",
    [("spreadsheet_id", .str "1BxiMVs0XRA5nFMdKvBdBZjgmUUqptlbs74OgvE2upms"),
     ("range_a1", .str "A1:B2"),
     ("values", .arr [.arr [.str "Jane", .str "30"]]),
     ("value_input_option", .str "USER_ENTERED"),
     ("insert_data_option", .str "INSERT_ROWS")]⟩,
   ⟨"Clear Values", "google_sheets_mcp_gs_values_clear",
    "Clear values in a spreadsheet range",
    [("spreadsheet_id", .str "1BxiMVs0XRA5nFMdKvBdBZjgmUUqptlbs74OgvE2upms"),
     ("range_a1", .str "A1:B2")]⟩,
   ⟨"Add Sheet", "google_sheets_mcp_gs_add_sheet",
    "Add a new sheet to a spreadsheet",
    [("spreadsheet_id", .str "1Yid5t5iBOljim_uBvovyllctO9nlKUURtSeMnEwaMC8"),
     ("title", .str "New MCP Testing Sheet")]⟩,
   ⟨"Delete Sheet", "google_sheets_mcp_gs_delete_sheet",
    "Delete a sheet from a spreadsheet",
    [("spreadsheet_id", .str "1BxiMVs0XRA5nFMdKvBdBZjgmUUqptlbs74OgvE2upms"),
     ("sheet_id", .num 2)]⟩]

/-- The `slides` array of `testScenarios`. -/
def slidesTests : List TestCase :=
  [⟨"Create Presentation", "google_slides_mcp_gs_create_presentation",
    "Create a new Google Slides presentation",
    [("title", .str "MCP Test Presentation")]⟩,
   ⟨"Get Presentation", "google_slides_mcp_gs_get_presentation",
    "Get details about a presentation",
    [("presentationId", .str "1BxiMVs0XRA5nFMdKvBdBZjgmUUqptlbs74OgvE2upms")]⟩,
   ⟨"Batch Update Presentation", "google_slides_mcp_gs_batch_update_presentation",
    "Apply batch updates to a presentation",
    [("presentationId", .str "1BxiMVs0XRA5nFMdKvBdBZjgmUUqptlbs74OgvE2upms"),
     ("requests", .arr [.obj [("createSlide",
        .obj [("slideLayoutReference",
          .obj [("predefinedLayout", .str "TITLE_AND_BODY")])])]])]⟩,
   ⟨"Get Page", "google_slides_mcp_gs_get_page",
    "Get details about a specific slide",
    [("presentationId", .str "1BxiMVs0XRA5nFMdKvBdBZjgmUUqptlbs74OgvE2upms"),
     ("pageObjectId", .str "slide1")]⟩,
   ⟨"Summarize Presentation", "google_slides_mcp_gs_summarize_presentation",
    "Extract text content from all slides",
    [("presentationId", .str "1BxiMVs0XRA5nFMdKvBdBZjgmUUqptlbs74OgvE2upms"),
     ("include_notes", .bool false)]⟩]

/-- The `whatsapp` array of `testScenarios`. -/
def whatsappTests : List TestCase :=
  [⟨"Send Text Message", "whatsapp_wa_send_text",
    "Send a text message via WhatsApp",
    [("to", .str "919910792473"),
     ("text", .str "Hello from MCP Gateway UI!"),
     ("preview_url", .bool false)]⟩,
   ⟨"Send Template Message", "whatsapp_wa_send_template",
    "Send an approved template message",
    [("to", .str "919910792473"),
     ("template_name", .str "hello_world"),
     ("language", .str "en_US")]⟩,
   ⟨"Send Image URL", "whatsapp_wa_send_image_url",
    "Send an image via URL",
    [("to", .str "919910792473"),
     ("image_url", .str "https://example.com/image.jpg"),
     ("caption", .str "Check out this image!")]⟩,
   ⟨"Send Document URL", "whatsapp_wa_send_document_url",
    "Send a document via URL",
    [("to", .str "919910792473"),
     ("doc_url", .str "https://example.com/document.pdf"),
     ("filename", .str "document.pdf")]⟩,
   ⟨"Send Buttons", "whatsapp_wa_send_buttons",
    "Send an interactive button message",
    [("to", .str "919910792473"),
     ("header_text", .str "Choose an option"),
     ("body_text", .str "Please select one of the following options:"),
     ("buttons", .arr [.obj [("id", .str "btn1"), ("title", .str "Yes")],
                       .obj [("id", .str "btn2"), ("title", .str "No")]])]⟩,
   ⟨"Mark Message as Read", "whatsapp_wa_mark_read",
    "Mark an inbound message as read",
    [("message_id", .str "wamid.1234567890abcdef")]⟩,
   ⟨"Upload Media", "whatsapp_wa_upload_media",
    "Upload media to WhatsApp Cloud API",
    [("file_path", .str "/path/to/your/file.jpg"),
     ("mime_type", .str "image/jpeg")]⟩]

/-- The `forms` array of `testScenarios`. -/
def formsTests : List TestCase :=
  [⟨"Create Form", "google_forms_mcp_gf_create_form",
    "Create a new Google Form",
    [("title", .str "MCP Test Form"),
     ("document_title", .str "MCP Test Form Document")]⟩,
   ⟨"Get Form", "google_forms_mcp_gf_get_form",
    "Get details about a form",
    [("form_id", .str "1BxiMVs0XRA5nFMdKvBdBZjgmUUqptlbs74OgvE2upms")]⟩,
   ⟨"Add Text Question", "google_forms_mcp_gf_add_question",
    "Add a text question to a form",
    [("form_id", .str "1BxiMVs0XRA5nFMdKvBdBZjgmUUqptlbs74OgvE2upms"),
     ("title", .str "What is your name?"),
     ("question_type", .str "TEXT"),
     ("index", .num 0)]⟩,
   ⟨"Add Multiple Choice Question", "google_forms_mcp_gf_add_question",
    "Add a multiple choice question to a form",
    [("form_id", .str "1BxiMVs0XRA5nFMdKvBdBZjgmUUqptlbs74OgvE2upms"),
     ("title", .str "Choose your favorite color"),
     ("question_type", .str "RADIO"),
     ("index", .num 1),
     ("options", .arr [.str "Red", .str "Blue", .str "Green", .str "Yellow"])]⟩,
   ⟨"Delete Question", "google_forms_mcp_gf_delete_question",
    "Delete a question from a form",
    [("form_id", .str "1BxiMVs0XRA5nFMdKvBdBZjgmUUqptlbs74OgvE2upms"),
     ("location_index", .num 0)]⟩,
   ⟨"Get Responses", "google_forms_mcp_gf_get_responses",
    "Get all responses from a form",
    [("form_id", .str "1BxiMVs0XRA5nFMdKvBdBZjgmUUqptlbs74OgvE2upms")]⟩,
   ⟨"List Forms via Drive", "google_forms_mcp_gf_drive_list_forms",
    "List all forms via Google Drive API",
    [("page_size", .num 5)]⟩,
   ⟨"Batch Update Form", "google_forms_mcp_gf_batch_update",
    "Apply batch updates to a form",
    [("form_id", .str "1BxiMVs0XRA5nFMdKvBdBZjgmUUqptlbs74OgvE2upms"),
     ("requests", .arr [.obj [("updateFormInfo",
        .obj [("info", .obj [("title", .str "Updated MCP Test Form")]),
              ("updateMask", .str "title")])]])]⟩]

/-- The `testScenarios` object, in the literal's key order, which
`Object.keys` preserves: sheets, slides, whatsapp, forms. -/
def testScenarios : List (String × List TestCase) :=
  [("sheets", sheetsTests), ("slides", slidesTests),
   ("whatsapp", whatsappTests), ("forms", formsTests)]

/-- `TestRunner.findTool`: look the tool name up across the four cached
category lists, in the spread order of the source. -/
def findTool (avail : Categorized) (toolName : String) : Option Tool :=
  (avail.sheets ++ avail.slides ++ avail.whatsapp ++ avail.forms).find?
    (fun t => t.name == toolName)

/-- An observable step of the running test suite: a `tools/call` issued
through `executeTest`, or an `await this.delay(ms)`. -/
inductive RunnerEvent where
  | call (toolName : String)
  | delay (ms : Nat)
deriving DecidableEq, Repr

/-- One entry of `this.results`. -/
structure RunnerResult where
  category : String
  test : String
  success : Bool
  error : Option String
deriving DecidableEq, Repr

/-- The `for` loop of `TestRunner.runCategoryTests` over one category's
tests.  `env k` is the outcome of the `k`-th `tools/call` the suite
issues (a throw from `makeRequest` is `Except.error`).  A missing tool
records a failure and `continue`s without a call; a successful call is
followed by `await this.delay(1000)`; a thrown call is caught, recorded,
and followed immediately by the next test. -/
def runTests (avail : Categorized) (env : Nat → Except String JsonVal)
    (category : String) : List TestCase → Nat →
    List RunnerEvent × List RunnerResult × Nat
  | [], k => ([], [], k)
  | test :: rest, k =>
    match findTool avail test.tool with
    | none =>
      let (evs, res, k1) := runTests avail env category rest k
      (evs, ⟨category, test.name, false,
             some ("Tool " ++ test.tool ++ " not found")⟩ :: res, k1)
    | some tool =>
      match env k with
      | .ok _result =>
        let (evs, res, k1) := runTests avail env category rest (k + 1)
        (.call tool.name :: .delay 1000 :: evs,
         ⟨category, test.name, true, none⟩ :: res, k1)
      | .error e =>
        let (evs, res, k1) := runTests avail env category rest (k + 1)
        (.call tool.name :: evs,
         ⟨category, test.name, false, some e⟩ :: res, k1)

/-- The `for (const category of categories)` loop of
`TestRunner.runAllTests`: run each category in turn, threading the call
counter and accumulating events and results. -/
def runCats (avail : Categorized) (env : Nat → Except String JsonVal) :
    List (String × List TestCase) → Nat →
    List RunnerEvent × List RunnerResult × Nat
  | [], k => ([], [], k)
  | (cat, tests) :: rest, k =>
    let r1 := runTests avail env cat tests k
    let r2 := runCats avail env rest r1.2.2
    (r1.1 ++ r2.1, r1.2.1 ++ r2.2.1, r2.2.2)

/-- `TestRunner.runAllTests`: replay every category of `testScenarios` in
`Object.keys` order. -/
def runAllTests (avail : Categorized) (env : Nat → Except String JsonVal) :
    List RunnerEvent × List RunnerResult :=
  let r := runCats avail env testScenarios 0
  (r.1, r.2.1)

end TestRunner

/-- A user-triggered UI event together with the network outcomes it will
observe: the connect/disconnect toggle button, the clear-chat button, a
click on the `i`-th tool item, the execute button (with the stringified
form parameters and the `tools/call` outcome), and the run-all-tests
button (with the per-call outcomes). -/
inductive Event where
  | connectBtn (env : ConnectEnv)
  | clearChatBtn
  | selectToolClick (i : Nat)
  | executeBtn (paramsStr : String) (outcome : Except String JsonVal)
  | runAllTestsBtn (env : Nat → Except String JsonVal)

/-- Dispatch one event against the current state, as the listeners in
`initializeEventListeners` do, returning the new state and the JSON-RPC
requests issued.  `runAllTestsBtn` is guarded by `isConnected`; its
per-test log lines are summarized by the starting system message (no
settled claim reads them), while its issued `tools/call` requests are
recorded exactly, one per runner `call` event, each with the headers and
session current when the suite ran. -/
def step (st : UIState) (e : Event) : UIState × List IssuedRequest :=
  match e with
  | .connectBtn env =>
    if st.isConnected then (disconnect st, []) else connect st env
  | .clearChatBtn =>
    ({ st with log := [sysMsg "Chat cleared. Ready for new requests."] }, [])
  | .selectToolClick i => (selectTool st i, [])
  | .executeBtn paramsStr outcome => executeCurrentTool st paramsStr outcome
  | .runAllTestsBtn env =>
    if !st.isConnected then
      ({ st with log := st.log ++ [errMsg "Please connect to MCP Gateway first"] }, [])
    else
      let avail := st.availableTools.getD Categorized.empty
      let (evs, _results) := TestRunner.runAllTests avail env
      let calls := evs.filter (fun ev => match ev with
        | .call _ => true | .delay _ => false)
      ({ st with log := st.log ++ [sysMsg "Starting comprehensive test suite..."] },
       calls.map (fun _ => issue st "tools/call"))

/-- Fold one event into a state paired with the requests issued so far. -/
def stepAcc (acc : UIState × List IssuedRequest) (e : Event) :
    UIState × List IssuedRequest :=
  ((step acc.1 e).1, acc.2 ++ (step acc.1 e).2)

/-- Run a sequence of events from the constructor state, accumulating
every issued request. -/
def run (events : List Event) : UIState × List IssuedRequest :=
  events.foldl stepAcc (initState, [])

/-- A connect environment whose `initialize` response, when the call
succeeds, carries an `mcp-session-id` response header. -/
def ConnectEnv.providesSession (env : ConnectEnv) : Bool :=
  match env.initOutcome with
  | .ok hs => (hs.lookup "mcp-session-id").isSome
  | .error _ => true

/-- An event whose connect environment provides a session header. -/
def goodEvent : Event → Bool
  | .connectBtn env => env.providesSession
  | _ => true

/-- The session invariant tied to the claimed data model: a connected
state holds a session id, and a selected tool or a rendered sidebar only
exists while connected. -/
def Inv (st : UIState) : Prop :=
  (st.isConnected = true → st.sessionId.isSome = true) ∧
  (st.currentTool.isSome = true → st.isConnected = true) ∧
  (st.domTools ≠ [] → st.isConnected = true)

/-- The tool name carried by a runner `call` event. -/
def callName : TestRunner.RunnerEvent → Option String
  | .call n => some n
  | .delay _ => none

/-- The tools the suite will actually call, in scenario order: the flat
scenario list restricted to the tests whose tool is present in the cache. -/
def scheduledTools (avail : Categorized) : List String :=
  (((TestRunner.testScenarios.map Prod.snd).flatten).filter
    (fun tc => (TestRunner.findTool avail tc.tool).isSome)).map
    (fun tc => tc.tool)

/-- `categorize` places a tool exactly where `categoryOf` says: the two
definitions test the same conditions in the same order. -/
theorem categorize_by_category (acc : Categorized) (t : Tool) :
    categorize acc t =
      match categoryOf t with
      | some .sheets => { acc with sheets := acc.sheets ++ [t] }
      | some .slides => { acc with slides := acc.slides ++ [t] }
      | some .whatsapp => { acc with whatsapp := acc.whatsapp ++ [t] }
      | some .forms => { acc with forms := acc.forms ++ [t] }
      | none => acc := by
  unfold categorize categoryOf
  by_cases h1 : (jsIncludes (jsToLowerCase t.name) "sheets"
      || jsIncludes (jsToLowerCase t.name) "gs_") = true
  · simp [h1]
  · simp only [Bool.not_eq_true] at h1
    by_cases h2 : (jsIncludes (jsToLowerCase t.name) "slides"
        || jsIncludes (jsToLowerCase t.name) "gs_") = true
    · simp [h1, h2]
    · simp only [Bool.not_eq_true] at h2
      by_cases h3 : (jsIncludes (jsToLowerCase t.name) "whatsapp"
          || jsIncludes (jsToLowerCase t.name) "wa_") = true
      · simp [h1, h2, h3]
      · simp only [Bool.not_eq_true] at h3
        by_cases h4 : (jsIncludes (jsToLowerCase t.name) "forms"
            || jsIncludes (jsToLowerCase t.name) "gf_") = true
        · simp [h1, h2, h3, h4]
        · simp only [Bool.not_eq_true] at h4
          simp [h1, h2, h3, h4]

/-- Folding `categorize` appends, per category, exactly the tools that
`categoryOf` sends there, preserving order. -/
theorem foldl_categorize (tools : List Tool) (acc : Categorized) :
    tools.foldl categorize acc =
      ⟨acc.sheets ++ tools.filter (fun t => categoryOf t == some Cat.sheets),
       acc.slides ++ tools.filter (fun t => categoryOf t == some Cat.slides),
       acc.whatsapp ++ tools.filter (fun t => categoryOf t == some Cat.whatsapp),
       acc.forms ++ tools.filter (fun t => categoryOf t == some Cat.forms)⟩ := by
  induction tools generalizing acc with
  | nil => simp
  | cons t ts ih =>
    rw [List.foldl_cons, ih, categorize_by_category]
    cases h : categoryOf t with
    | none => simp [List.filter_cons, h]
    | some c => cases c <;> simp [List.filter_cons, h, List.append_assoc]

/-- The four category buckets together never hold more entries than the
input list: each tool lands in at most one bucket. -/
theorem sum_category_filters_le (tools : List Tool) :
    (tools.filter (fun t => categoryOf t == some Cat.sheets)).length +
      (tools.filter (fun t => categoryOf t == some Cat.slides)).length +
      (tools.filter (fun t => categoryOf t == some Cat.whatsapp)).length +
      (tools.filter (fun t => categoryOf t == some Cat.forms)).length ≤
      tools.length := by
  induction tools with
  | nil => simp
  | cons t ts ih =>
    simp only [List.filter_cons, List.length_cons]
    cases h : categoryOf t with
    | none => simp [h, beq_iff_eq]; omega
    | some c => cases c <;> (simp [h, beq_iff_eq]; omega)

/-- C9: `parseTools` assigns each tool to at most one category, chosen by
testing the lowercased name against the patterns in the fixed order
sheets (`sheets`/`gs_`), slides (`slides`/`gs_`), whatsapp
(`whatsapp`/`wa_`), forms (`forms`/`gf_`); every tool whose name contains
`gs_` therefore lands in sheets (even when the name also contains
`slides`), and a tool matching no pattern is dropped from the result. -/
theorem C9_parseTools_assignment :
    ∀ tools : List Tool,
      (parseTools tools =
        ⟨tools.filter (fun t => categoryOf t == some Cat.sheets),
         tools.filter (fun t => categoryOf t == some Cat.slides),
         tools.filter (fun t => categoryOf t == some Cat.whatsapp),
         tools.filter (fun t => categoryOf t == some Cat.forms)⟩) ∧
      ((parseTools tools).sheets.length + (parseTools tools).slides.length +
        (parseTools tools).whatsapp.length + (parseTools tools).forms.length ≤
        tools.length) ∧
      (∀ t : Tool, jsIncludes (jsToLowerCase t.name) "gs_" = true →
        categoryOf t = some Cat.sheets) ∧
      (∀ t : Tool, categoryOf t = none → parseTools [t] = Categorized.empty) := by
  intro tools
  have hchar := foldl_categorize tools Categorized.empty
  refine ⟨?_, ?_, ?_, ?_⟩
  · simpa [parseTools, Categorized.empty] using hchar
  · have : parseTools tools =
        ⟨tools.filter (fun t => categoryOf t == some Cat.sheets),
         tools.filter (fun t => categoryOf t == some Cat.slides),
         tools.filter (fun t => categoryOf t == some Cat.whatsapp),
         tools.filter (fun t => categoryOf t == some Cat.forms)⟩ := by
      simpa [parseTools, Categorized.empty] using hchar
    rw [this]
    exact sum_category_filters_le tools
  · intro t h
    unfold categoryOf
    simp [h]
  · intro t h
    simp [parseTools, categorize_by_category, h, Categorized.empty]

/-- C9 witness: a concrete slides-named tool containing `gs_` is
classified as sheets, and an unmatched tool is dropped. -/
theorem C9_witness :
    categoryOf ⟨"google_slides_mcp_gs_create_presentation", none, none⟩ = some Cat.sheets ∧
    parseTools [⟨"hubspot_create_company", none, none⟩] = Categorized.empty :=
  ⟨(C9_parseTools_assignment []).2.2.1 ⟨"google_slides_mcp_gs_create_presentation", none, none⟩
      (by decide),
   (C9_parseTools_assignment []).2.2.2 ⟨"hubspot_create_company", none, none⟩ (by decide)⟩

/-- C10: `parseParameterValue` is a total deterministic function on
strings matching the specified order of checks: JSON for bracket or brace
prefixes with the raw string as fallback, then `Number` conversion for
any non-empty string the coercion accepts (including digit-only
identifiers), then the boolean literals, else the unchanged string. -/
theorem C10_parseParameterValue_matches_spec :
    ∀ (jsonParse : String → Option JsonVal) (toNum : String → Option Rat),
      (∀ value, parseParameterValue jsonParse toNum value =
        parseParameterValueSpec jsonParse toNum value) ∧
      (∀ n : Rat, toNum "919910792473" = some n →
        parseParameterValue jsonParse toNum "919910792473" = .num n) := by
  intro jsonParse toNum
  constructor
  · intro value
    unfold parseParameterValue parseParameterValueSpec
    by_cases h1 : (jsStartsWith value "[" || jsStartsWith value "\x7b") = true
    · simp only [h1, if_true]
      cases jsonParse value <;> rfl
    · simp only [Bool.not_eq_true] at h1
      simp only [h1, Bool.false_eq_true, if_false]
      rw [Bool.and_comm]
  · intro n hn
    unfold parseParameterValue
    rw [if_neg (by decide), if_pos (by simp [hn])]
    simp [hn]

/-- C10 witness: a digit-only identifier accepted by the number coercion
is converted to a number. -/
theorem C10_witness :
    parseParameterValue (fun _ => none)
      (fun s => if s == "919910792473" then some 919910792473 else none)
      "919910792473" = .num 919910792473 :=
  (C10_parseParameterValue_matches_spec (fun _ => none)
      (fun s => if s == "919910792473" then some 919910792473 else none)).2
    919910792473 (by decide)

/-- The data-line loop picks the head of the successful parses of the
`data: ` lines, in order: failing data lines are skipped. -/
theorem firstDataParse_eq_head (parse : String → Option JsonVal) (lines : List String) :
    firstDataParse parse lines =
      (lines.filterMap (fun line =>
        if jsStartsWith line "data: " then parse (jsSubstringFrom line 6)
        else none)).head? := by
  induction lines with
  | nil => rfl
  | cons line rest ih =>
    simp only [firstDataParse, List.filterMap_cons]
    by_cases h : jsStartsWith line "data: " = true
    · simp only [h, if_true]
      cases parse (jsSubstringFrom line 6) <;> simp [ih]
    · simp only [Bool.not_eq_true] at h
      simp [h, ih]

/-- C4 counterexample: a body whose only `data: ` line holds the valid
JSON text `null` makes `makeRequest` throw `Invalid response format`
instead of returning the parsed value, because the source rejects any
falsy parse result. -/
theorem C4_counterexample :
    makeRequest (fun s => if s == "null" then some .null else none)
      ⟨true, 200, "OK", [], "data: null"⟩ = .error "Invalid response format" ∧
    firstDataParse (fun s => if s == "null" then some .null else none)
      (jsSplit "data: null" '\n') = some .null :=
  ⟨rfl, rfl⟩

/-- C4 (amended): for an `ok` response, `makeRequest` finds the first
`data: ` line whose payload parses (skipping earlier failing ones) and
returns its value only when that value is truthy; a falsy first parse, or
no parsing data line at all, throws `Invalid response format`.  A
non-`ok` response throws `HTTP status: statusText` without examining the
body. -/
theorem C4_makeRequest_response_handling :
    ∀ (parse : String → Option JsonVal) (resp : HttpResponse),
      (resp.ok = true →
        (∀ v, firstDataParse parse (jsSplit resp.body '\n') = some v →
          makeRequest parse resp =
            (if jsTruthy v then .ok (v, resp.headers)
             else .error "Invalid response format")) ∧
        (firstDataParse parse (jsSplit resp.body '\n') = none →
          makeRequest parse resp = .error "Invalid response format")) ∧
      (resp.ok = false →
        makeRequest parse resp =
          .error ("HTTP " ++ toString resp.status ++ ": " ++ resp.statusText) ∧
        (∀ body2, makeRequest parse { resp with body := body2 } =
          makeRequest parse resp)) ∧
      (firstDataParse parse (jsSplit resp.body '\n') =
        ((jsSplit resp.body '\n').filterMap (fun line =>
          if jsStartsWith line "data: " then parse (jsSubstringFrom line 6)
          else none)).head?) := by
  intro parse resp
  refine ⟨fun hok => ⟨fun v hv => ?_, fun hnone => ?_⟩,
          fun hnotok => ⟨?_, fun body2 => ?_⟩, ?_⟩
  · unfold makeRequest
    rw [hok]
    simp only [Bool.not_true, Bool.false_eq_true, if_false]
    rw [hv]
  · unfold makeRequest
    rw [hok]
    simp only [Bool.not_true, Bool.false_eq_true, if_false]
    rw [hnone]
  · unfold makeRequest
    rw [hnotok]
    rfl
  · unfold makeRequest
    rw [hnotok]
    rfl
  · exact firstDataParse_eq_head parse _

/-- C4 witness: an `ok` response whose first parsing data line is a
truthy object is returned with the response headers, and a non-`ok`
response throws the HTTP error. -/
theorem C4_witness :
    makeRequest (fun s => if s == "data" then some (.obj []) else none)
      ⟨true, 200, "OK", [("content-type", "text/event-stream")],
        "data: data"⟩ =
      .ok (.obj [], [("content-type", "text/event-stream")]) ∧
    makeRequest (fun s => if s == "data" then some (.obj []) else none)
      ⟨false, 404, "Not Found", [], "data: data"⟩ =
      .error ("HTTP " ++ toString (404 : Nat) ++ ": " ++ "Not Found") :=
  ⟨(((C4_makeRequest_response_handling
        (fun s => if s == "data" then some (.obj []) else none)
        ⟨true, 200, "OK", [("content-type", "text/event-stream")],
          "data: data"⟩).1 rfl).1 (.obj []) (by rfl)).trans rfl,
   (((C4_makeRequest_response_handling
        (fun s => if s == "data" then some (.obj []) else none)
        ⟨false, 404, "Not Found", [], "data: data"⟩).2.1 rfl).1)⟩

/-- C5 counterexample: after a failed or dropped connection with no prior
retry attempts and a token present, `attemptReconnect` schedules an
automatic reconnect after `1000` ms, so the client does re-attempt the
operation. -/
theorem C5_counterexample :
    (MCPChat.attemptReconnect
      ⟨false, 0, 5, 1000, some "token"⟩).2 = some 1000 ∧
    (MCPChat.connectFailure
      ⟨false, 0, 5, 1000, some "token"⟩).2 ≠ none := by
  exact ⟨rfl, by decide⟩

/-- C5 (amended): the gateway HTTP client has no retry logic, but the
WebSocket chat client does: while fewer than `maxReconnectAttempts`
attempts have been made and a token is present, `attemptReconnect`
increments the counter and schedules one reconnect after
`reconnectDelay * (attempts + 1)` ms (linear backoff); otherwise, and in
particular after the counter reaches the maximum, no reconnect is ever
scheduled. -/
theorem C5_reconnect_policy :
    ∀ st : MCPChat.ChatState,
      (st.reconnectAttempts < st.maxReconnectAttempts →
        jsTruthyStr st.authToken = true →
        MCPChat.attemptReconnect st =
          ({ st with reconnectAttempts := st.reconnectAttempts + 1 },
           some (st.reconnectDelay * (st.reconnectAttempts + 1)))) ∧
      (st.maxReconnectAttempts ≤ st.reconnectAttempts ∨
          jsTruthyStr st.authToken = false →
        MCPChat.attemptReconnect st = (st, none)) ∧
      (∀ code, (MCPChat.onClose st code).2 ≠ none →
        st.reconnectAttempts < st.maxReconnectAttempts) := by
  intro st
  refine ⟨fun hlt htok => ?_, fun hstop => ?_, fun code hsched => ?_⟩
  · unfold MCPChat.attemptReconnect
    rw [if_pos (by simp [hlt, htok])]
  · unfold MCPChat.attemptReconnect
    rw [if_neg ?_]
    simp only [Bool.and_eq_true, decide_eq_true_eq, not_and]
    intro hlt
    rcases hstop with h | h
    · omega
    · simp [h]
  · by_cases hlt : st.reconnectAttempts < st.maxReconnectAttempts
    · exact hlt
    · exfalso
      apply hsched
      simp only [MCPChat.onClose, MCPChat.attemptReconnect]
      by_cases hc : (code == 1008) = true
      · simp [hc]
      · by_cases ht : (jsTruthyStr st.authToken && code != 1000) = true
        · simp [hc, ht]
        · simp [hc, ht, hlt]

/-- C5 witness: a state at the attempt limit never schedules a
reconnect, while one below the limit with a token schedules a linearly
backed-off reconnect. -/
theorem C5_witness :
    MCPChat.attemptReconnect ⟨false, 2, 5, 1000, some "tok"⟩ =
      (⟨false, 3, 5, 1000, some "tok"⟩, some 3000) ∧
    MCPChat.attemptReconnect ⟨false, 5, 5, 1000, some "tok"⟩ =
      (⟨false, 5, 5, 1000, some "tok"⟩, none) :=
  ⟨((C5_reconnect_policy ⟨false, 2, 5, 1000, some "tok"⟩).1
      (by decide) (by decide)).trans rfl,
   (C5_reconnect_policy ⟨false, 5, 5, 1000, some "tok"⟩).2.1
      (Or.inl (by decide))⟩

/-- C1: in a successful `connect` from the fresh state, none of the three
requests — including `notifications/initialized` and `tools/list` —
carries the `Mcp-Session-Id` header, because `sessionId` is assigned only
after `tools/list` returns (it does end up holding the header value);
the repository probe script sends that header on exactly those two
follow-up calls. -/
theorem C1_connect_requests_lack_session_header :
    ((connect initState
        ⟨.ok [("mcp-session-id", "sess-1")], .ok (), .ok (some [])⟩).2.map
      (fun r => (r.method, (r.headers.lookup "Mcp-Session-Id").isSome))) =
      [("initialize", false), ("notifications/initialized", false),
       ("tools/list", false)] ∧
    (connect initState
        ⟨.ok [("mcp-session-id", "sess-1")], .ok (), .ok (some [])⟩).1.sessionId =
      some "sess-1" ∧
    ((probeFollowupHeaders "2025-06-18" "sess-1").lookup "Mcp-Session-Id") =
      some "sess-1" :=
  ⟨rfl, rfl, rfl⟩

/-- C3: after a successful `connect` the stored session identifier is the
`mcp-session-id` response header of the initialize HTTP response, and
across every event the session identifier is only ever kept, nulled, or
read from an initialize response header — never taken from a response
body. -/
theorem C3_sessionId_from_initialize_header :
    (∀ (st : UIState) (env : ConnectEnv) (hs : List (String × String))
        (topt : Option (List Tool)),
      env.initOutcome = .ok hs → env.notifOutcome = .ok () →
      env.toolsOutcome = .ok topt →
      (connect st env).1.sessionId = hs.lookup "mcp-session-id" ∧
      (connect st env).1.isConnected = true) ∧
    (∀ (st : UIState) (e : Event),
      (step st e).1.sessionId = st.sessionId ∨
      (step st e).1.sessionId = none ∨
      ∃ (env : ConnectEnv) (hs : List (String × String)),
        e = .connectBtn env ∧ env.initOutcome = .ok hs ∧
        (step st e).1.sessionId = hs.lookup "mcp-session-id") := by
  constructor
  · intro st env hs topt h1 h2 h3
    unfold connect
    rw [h1, h2, h3]
    exact ⟨rfl, rfl⟩
  · intro st e
    cases e with
    | connectBtn env =>
      by_cases hc : st.isConnected = true
      · right; left
        simp [step, hc, disconnect]
      · cases h1 : env.initOutcome with
        | error e1 => left; simp [step, hc, connect, h1]
        | ok hs =>
          cases h2 : env.notifOutcome with
          | error e2 => left; simp [step, hc, connect, h1, h2]
          | ok u =>
            cases h3 : env.toolsOutcome with
            | error e3 => left; simp [step, hc, connect, h1, h2, h3]
            | ok topt =>
              right; right
              exact ⟨env, hs, rfl, h1, by simp [step, hc, connect, h1, h2, h3]⟩
    | clearChatBtn => left; rfl
    | selectToolClick i =>
      left; cases h : st.domTools[i]? <;> simp [step, selectTool, h]
    | executeBtn p outcome =>
      left
      cases h : st.currentTool with
      | none => simp [step, executeCurrentTool, h]
      | some tool => cases outcome <;> simp [step, executeCurrentTool, h]
    | runAllTestsBtn env =>
      left
      by_cases hc : st.isConnected = true <;> simp [step, hc]

/-- C3 witness: a concrete successful connect stores the header value as
the session identifier. -/
theorem C3_witness :
    (connect initState
        ⟨.ok [("mcp-session-id", "s42")], .ok (), .ok (some [])⟩).1.sessionId =
      some "s42" ∧
    (connect initState
        ⟨.ok [("mcp-session-id", "s42")], .ok (), .ok (some [])⟩).1.isConnected =
      true :=
  ⟨((C3_sessionId_from_initialize_header.1 initState
      ⟨.ok [("mcp-session-id", "s42")], .ok (), .ok (some [])⟩
      [("mcp-session-id", "s42")] (some []) rfl rfl rfl).1).trans rfl,
   (C3_sessionId_from_initialize_header.1 initState
      ⟨.ok [("mcp-session-id", "s42")], .ok (), .ok (some [])⟩
      [("mcp-session-id", "s42")] (some []) rfl rfl rfl).2⟩

/-- C6: when the `tools/call` of `executeCurrentTool` throws, the error
is caught at the call site: the connection state (`sessionId`,
`isConnected`, `availableTools`), the selected tool and the sidebar are
unchanged, the log gains the request line plus exactly one error line
whose text contains the thrown message, exactly one request was issued,
and no recovery request follows. -/
theorem C6_execute_failure_caught_and_logged :
    ∀ (st : UIState) (tool : Tool) (paramsStr e : String),
      st.currentTool = some tool →
      (executeCurrentTool st paramsStr (.error e)).1.sessionId = st.sessionId ∧
      (executeCurrentTool st paramsStr (.error e)).1.isConnected = st.isConnected ∧
      (executeCurrentTool st paramsStr (.error e)).1.availableTools = st.availableTools ∧
      (executeCurrentTool st paramsStr (.error e)).1.currentTool = st.currentTool ∧
      (executeCurrentTool st paramsStr (.error e)).1.domTools = st.domTools ∧
      (executeCurrentTool st paramsStr (.error e)).1.log =
        st.log ++ [reqMsg tool.name paramsStr,
                   errMsg ("Tool execution failed: " ++ e)] ∧
      ((executeCurrentTool st paramsStr (.error e)).1.log.filter
          (fun m => m.type == MsgType.error)) =
        st.log.filter (fun m => m.type == MsgType.error) ++
          [errMsg ("Tool execution failed: " ++ e)] ∧
      (executeCurrentTool st paramsStr (.error e)).2 =
        [⟨"tools/call", requestHeaders st.sessionId, st.sessionId⟩] := by
  intro st tool paramsStr e h
  unfold executeCurrentTool
  rw [h]
  refine ⟨rfl, rfl, rfl, rfl, rfl, by simp, ?_, rfl⟩
  simp [List.filter_append, reqMsg, errMsg, List.append_assoc]

/-- C6 witness: a concrete failing execution logs the single error line
and leaves the connection fields alone. -/
theorem C6_witness :
    (executeCurrentTool
      ⟨some "sess", true, some Categorized.empty,
       some ⟨"whatsapp_wa_send_text", none, none⟩, [], []⟩
      "\x7b\x7d" (.error "boom")).1.log =
      [reqMsg "whatsapp_wa_send_text" "\x7b\x7d",
       errMsg "Tool execution failed: boom"] ∧
    (executeCurrentTool
      ⟨some "sess", true, some Categorized.empty,
       some ⟨"whatsapp_wa_send_text", none, none⟩, [], []⟩
      "\x7b\x7d" (.error "boom")).1.isConnected = true ∧
    (executeCurrentTool
      ⟨some "sess", true, some Categorized.empty,
       some ⟨"whatsapp_wa_send_text", none, none⟩, [], []⟩
      "\x7b\x7d" (.error "boom")).2 =
      [⟨"tools/call", requestHeaders (some "sess"), some "sess"⟩] :=
  ⟨((C6_execute_failure_caught_and_logged
      ⟨some "sess", true, some Categorized.empty,
       some ⟨"whatsapp_wa_send_text", none, none⟩, [], []⟩
      ⟨"whatsapp_wa_send_text", none, none⟩ "\x7b\x7d" "boom"
      rfl).2.2.2.2.2.1).trans (by rfl),
   ((C6_execute_failure_caught_and_logged
      ⟨some "sess", true, some Categorized.empty,
       some ⟨"whatsapp_wa_send_text", none, none⟩, [], []⟩
      ⟨"whatsapp_wa_send_text", none, none⟩ "\x7b\x7d" "boom"
      rfl).2.1).trans rfl,
   (C6_execute_failure_caught_and_logged
      ⟨some "sess", true, some Categorized.empty,
       some ⟨"whatsapp_wa_send_text", none, none⟩, [], []⟩
      ⟨"whatsapp_wa_send_text", none, none⟩ "\x7b\x7d" "boom"
      rfl).2.2.2.2.2.2.2⟩

/-- C7: `connect` issues at most one `tools/list` request, exactly one
when it succeeds — storing the parsed tools in `availableTools` — no
event other than the connect/disconnect button changes `availableTools`,
and `disconnect` clears it together with `sessionId` and `currentTool`. -/
theorem C7_tools_cache_lifecycle :
    (∀ (st : UIState) (env : ConnectEnv),
      ((connect st env).2.countP (fun r => r.method == "tools/list")) ≤ 1) ∧
    (∀ (st : UIState) (env : ConnectEnv) (hs : List (String × String))
        (topt : Option (List Tool)),
      env.initOutcome = .ok hs → env.notifOutcome = .ok () →
      env.toolsOutcome = .ok topt →
      ((connect st env).2.countP (fun r => r.method == "tools/list")) = 1 ∧
      (connect st env).1.availableTools = some (parseTools (topt.getD []))) ∧
    (∀ (st : UIState) (e : Event),
      (step st e).1.availableTools ≠ st.availableTools →
      ∃ env, e = Event.connectBtn env) ∧
    (∀ st : UIState, (disconnect st).availableTools = none ∧
      (disconnect st).sessionId = none ∧ (disconnect st).currentTool = none) := by
  refine ⟨?_, ?_, ?_, fun st => ⟨rfl, rfl, rfl⟩⟩
  · intro st env
    unfold connect
    cases env.initOutcome with
    | error e1 => exact Nat.zero_le 1
    | ok hs =>
      cases env.notifOutcome with
      | error e2 => exact Nat.zero_le 1
      | ok u =>
        cases env.toolsOutcome with
        | error e3 => exact Nat.le.refl
        | ok topt => exact Nat.le.refl
  · intro st env hs topt h1 h2 h3
    unfold connect
    rw [h1, h2, h3]
    exact ⟨rfl, rfl⟩
  · intro st e
    cases e with
    | connectBtn env => intro _; exact ⟨env, rfl⟩
    | clearChatBtn => intro hne; exact absurd rfl hne
    | selectToolClick i =>
      intro hne
      refine absurd ?_ hne
      cases h : st.domTools[i]? <;> simp [step, selectTool, h]
    | executeBtn p outcome =>
      intro hne
      refine absurd ?_ hne
      cases h : st.currentTool with
      | none => simp [step, executeCurrentTool, h]
      | some tool => cases outcome <;> simp [step, executeCurrentTool, h]
    | runAllTestsBtn env =>
      intro hne
      refine absurd ?_ hne
      by_cases hc : st.isConnected = true <;> simp [step, hc]

/-- C7 witness: a concrete successful connect issues exactly one
`tools/list` and caches the parsed (empty) tool list. -/
theorem C7_witness :
    ((connect initState
        ⟨.ok [("mcp-session-id", "s1")], .ok (), .ok (some [])⟩).2.countP
      (fun r => r.method == "tools/list")) = 1 ∧
    (connect initState
        ⟨.ok [("mcp-session-id", "s1")], .ok (), .ok (some [])⟩).1.availableTools =
      some Categorized.empty :=
  ⟨(C7_tools_cache_lifecycle.2.1 initState
      ⟨.ok [("mcp-session-id", "s1")], .ok (), .ok (some [])⟩
      [("mcp-session-id", "s1")] (some []) rfl rfl rfl).1,
   ((C7_tools_cache_lifecycle.2.1 initState
      ⟨.ok [("mcp-session-id", "s1")], .ok (), .ok (some [])⟩
      [("mcp-session-id", "s1")] (some []) rfl rfl rfl).2).trans rfl⟩

/-- The constructor state satisfies the session invariant. -/
theorem inv_initState : Inv initState := by
  refine ⟨?_, ?_, ?_⟩ <;> simp [initState, Inv]

/-- Every event whose connect environment provides a session header
preserves the session invariant. -/
theorem inv_step (st : UIState) (e : Event) (hInv : Inv st)
    (hGood : goodEvent e = true) : Inv (step st e).1 := by
  obtain ⟨h1, h2, h3⟩ := hInv
  cases e with
  | connectBtn env =>
    by_cases hc : st.isConnected = true
    · simp [step, hc, disconnect, Inv]
    · cases he1 : env.initOutcome with
      | error e1 =>
        have hst : (step st (.connectBtn env)).1 = { st with
            log := st.log ++ [errMsg ("Connection failed: " ++ e1)] } := by
          simp [step, hc, connect, he1]
        rw [hst]; exact ⟨h1, h2, h3⟩
      | ok hs =>
        cases he2 : env.notifOutcome with
        | error e2 =>
          have hst : (step st (.connectBtn env)).1 = { st with
              log := st.log ++ [errMsg ("Connection failed: " ++ e2)] } := by
            simp [step, hc, connect, he1, he2]
          rw [hst]; exact ⟨h1, h2, h3⟩
        | ok u =>
          cases he3 : env.toolsOutcome with
          | error e3 =>
            have hst : (step st (.connectBtn env)).1 = { st with
                log := st.log ++ [errMsg ("Connection failed: " ++ e3)] } := by
              simp [step, hc, connect, he1, he2, he3]
            rw [hst]; exact ⟨h1, h2, h3⟩
          | ok topt =>
            have hses : (hs.lookup "mcp-session-id").isSome = true := by
              simpa [goodEvent, ConnectEnv.providesSession, he1] using hGood
            simp [step, hc, connect, he1, he2, he3, Inv, hses]
  | clearChatBtn => exact ⟨h1, h2, h3⟩
  | selectToolClick i =>
    cases h : st.domTools[i]? with
    | none =>
      have hst : (step st (.selectToolClick i)).1 = st := by
        simp [step, selectTool, h]
      rw [hst]; exact ⟨h1, h2, h3⟩
    | some t =>
      have hne : st.domTools ≠ [] := by
        intro hnil; rw [hnil] at h; simp at h
      have hcon := h3 hne
      have hst : (step st (.selectToolClick i)).1 =
          { st with currentTool := some t } := by
        simp [step, selectTool, h]
      rw [hst]
      exact ⟨h1, fun _ => hcon, h3⟩
  | executeBtn p outcome =>
    cases h : st.currentTool with
    | none =>
      have hst : (step st (.executeBtn p outcome)).1 =
          { st with log := st.log ++ [errMsg "No tool selected"] } := by
        simp [step, executeCurrentTool, h]
      rw [hst]; exact ⟨h1, h2, h3⟩
    | some tool =>
      cases outcome with
      | ok v =>
        have hst : (step st (.executeBtn p (.ok v))).1 =
            { st with log := (st.log ++ [reqMsg tool.name p]) ++
                [respMsg tool.name v] } := by
          simp [step, executeCurrentTool, h]
        rw [hst]; exact ⟨h1, h2, h3⟩
      | error err =>
        have hst : (step st (.executeBtn p (.error err))).1 =
            { st with log := (st.log ++ [reqMsg tool.name p]) ++
                [errMsg ("Tool execution failed: " ++ err)] } := by
          simp [step, executeCurrentTool, h]
        rw [hst]; exact ⟨h1, h2, h3⟩
  | runAllTestsBtn env =>
    by_cases hc : st.isConnected = true
    · have hst : (step st (.runAllTestsBtn env)).1 =
          { st with log := st.log ++
              [sysMsg "Starting comprehensive test suite..."] } := by
        simp [step, hc]
      rw [hst]; exact ⟨h1, h2, h3⟩
    · have hst : (step st (.runAllTestsBtn env)).1 =
          { st with log := st.log ++
              [errMsg "Please connect to MCP Gateway first"] } := by
        simp [step, hc]
      rw [hst]; exact ⟨h1, h2, h3⟩

/-- From an invariant state, every `tools/call` request a single event
issues carries a present session identifier. -/
theorem step_toolcalls_have_session (st : UIState) (e : Event) (hInv : Inv st) :
    ∀ r ∈ (step st e).2, r.method = "tools/call" →
      r.sessionAtIssue.isSome = true := by
  obtain ⟨h1, h2, h3⟩ := hInv
  cases e with
  | connectBtn env =>
    by_cases hc : st.isConnected = true
    · simp [step, hc, disconnect]
    · cases he1 : env.initOutcome with
      | error e1 =>
        intro r hr hm
        simp [step, hc, connect, he1, issue] at hr
        rw [hr] at hm
        simp at hm
      | ok hs =>
        cases he2 : env.notifOutcome with
        | error e2 =>
          intro r hr hm
          simp [step, hc, connect, he1, he2, issue] at hr
          rcases hr with hr | hr <;> rw [hr] at hm <;> simp at hm
        | ok u =>
          cases he3 : env.toolsOutcome with
          | error e3 =>
            intro r hr hm
            simp [step, hc, connect, he1, he2, he3, issue] at hr
            rcases hr with hr | hr | hr <;> rw [hr] at hm <;> simp at hm
          | ok topt =>
            intro r hr hm
            simp [step, hc, connect, he1, he2, he3, issue] at hr
            rcases hr with hr | hr | hr <;> rw [hr] at hm <;> simp at hm
  | clearChatBtn => simp [step]
  | selectToolClick i =>
    cases h : st.domTools[i]? <;> simp [step, selectTool, h]
  | executeBtn p outcome =>
    cases h : st.currentTool with
    | none => simp [step, executeCurrentTool, h]
    | some tool =>
      have hcon : st.isConnected = true := h2 (by simp [h])
      have hses := h1 hcon
      cases outcome with
      | ok v =>
        intro r hr hm
        simp [step, executeCurrentTool, h, issue] at hr
        rw [hr]
        exact hses
      | error err =>
        intro r hr hm
        simp [step, executeCurrentTool, h, issue] at hr
        rw [hr]
        exact hses
  | runAllTestsBtn env =>
    by_cases hc : st.isConnected = true
    · have hses := h1 hc
      intro r hr hm
      simp [step, hc] at hr
      rw [hr.2]
      exact hses
    · simp [step, hc]

/-- Folding good events from an invariant state keeps every accumulated
`tools/call` request holding a session identifier. -/
theorem foldl_toolcalls_have_session (events : List Event) :
    ∀ (st : UIState) (acc : List IssuedRequest), Inv st →
      (∀ r ∈ acc, r.method = "tools/call" → r.sessionAtIssue.isSome = true) →
      (∀ e ∈ events, goodEvent e = true) →
      ∀ r ∈ (events.foldl stepAcc (st, acc)).2,
        r.method = "tools/call" → r.sessionAtIssue.isSome = true := by
  induction events with
  | nil => intro st acc _ hacc _; simpa using hacc
  | cons e es ih =>
    intro st acc hInv hacc hGood
    rw [List.foldl_cons]
    refine ih (step st e).1 (acc ++ (step st e).2) ?_ ?_ ?_
    · exact inv_step st e hInv (hGood e (List.mem_cons_self e es))
    · intro r hr
      rcases List.mem_append.mp hr with h | h
      · exact hacc r h
      · exact step_toolcalls_have_session st e hInv r h
    · intro e2 he2
      exact hGood e2 (List.mem_cons_of_mem e he2)

/-- C2 counterexample: when the initialize response of a successful
connect carries no `mcp-session-id` header, the client still reaches a
connected state and the test runner issues a `tools/call` while the
stored session identifier is null. -/
theorem C2_counterexample :
    ((run [Event.connectBtn ⟨.ok [], .ok (),
             .ok (some [⟨"whatsapp_wa_send_text", none, none⟩])⟩,
           Event.runAllTestsBtn (fun _ => .ok .null)]).2.filter
        (fun r => r.method == "tools/call")).map (fun r => r.sessionAtIssue) =
      [none] := by
  rfl

/-- C2 (amended): in every run in which each successful connect reads an
`mcp-session-id` header from its initialize response, every `tools/call`
request — from `executeCurrentTool` or from the test runner — is issued
while the stored session identifier is present. -/
theorem C2_session_present_for_tool_calls :
    ∀ events : List Event,
      (∀ e ∈ events, goodEvent e = true) →
      ∀ r ∈ (run events).2, r.method = "tools/call" →
        r.sessionAtIssue.isSome = true := by
  intro events hGood
  exact foldl_toolcalls_have_session events initState [] inv_initState
    (by simp) hGood

/-- C2 witness: a run with a header-providing connect followed by the
test suite issues its `tools/call` with the session present. -/
theorem C2_witness :
    ((run [Event.connectBtn ⟨.ok [("mcp-session-id", "w1")], .ok (),
             .ok (some [⟨"whatsapp_wa_send_text", none, none⟩])⟩,
           Event.runAllTestsBtn (fun _ => .ok .null)]).2.filter
        (fun r => r.method == "tools/call")).map (fun r => r.sessionAtIssue) =
      [some "w1"] ∧
    ∀ r ∈ (run [Event.connectBtn ⟨.ok [("mcp-session-id", "w1")], .ok (),
             .ok (some [⟨"whatsapp_wa_send_text", none, none⟩])⟩,
           Event.runAllTestsBtn (fun _ => .ok .null)]).2,
      r.method = "tools/call" → r.sessionAtIssue.isSome = true :=
  ⟨rfl,
   C2_session_present_for_tool_calls
     [Event.connectBtn ⟨.ok [("mcp-session-id", "w1")], .ok (),
        .ok (some [⟨"whatsapp_wa_send_text", none, none⟩])⟩,
      Event.runAllTestsBtn (fun _ => .ok .null)]
     (by intro e he; fin_cases he <;> rfl)⟩

/-- A tool found by `findTool` bears the searched name. -/
theorem findTool_name (avail : Categorized) (toolName : String) (tool : Tool)
    (h : TestRunner.findTool avail toolName = some tool) :
    tool.name = toolName := by
  unfold TestRunner.findTool at h
  have := List.find?_some h
  simpa [beq_iff_eq] using this

/-- The calls of one category run are exactly the found tests, in array
order, whatever the outcomes. -/
theorem runTests_calls_in_order (avail : Categorized)
    (env : Nat → Except String JsonVal) (category : String)
    (tests : List TestRunner.TestCase) :
    ∀ k, ((TestRunner.runTests avail env category tests k).1.filterMap callName) =
      ((tests.filter
          (fun tc => (TestRunner.findTool avail tc.tool).isSome)).map
        (fun tc => tc.tool)) := by
  induction tests with
  | nil => intro k; rfl
  | cons tc rest ih =>
    intro k
    simp only [TestRunner.runTests]
    cases hf : TestRunner.findTool avail tc.tool with
    | none => simp [hf, List.filter_cons, ih k]
    | some tool =>
      have hname := findTool_name avail tc.tool tool hf
      cases he : env k with
      | ok v => simp [hf, he, List.filter_cons, callName, ih (k + 1), hname]
      | error er => simp [hf, he, List.filter_cons, callName, ih (k + 1), hname]

/-- When every call succeeds, one category run is the found tests in
array order, each call followed by the fixed 1000 ms delay. -/
theorem runTests_events_all_ok (avail : Categorized)
    (env : Nat → Except String JsonVal) (category : String)
    (tests : List TestRunner.TestCase) (hok : ∀ j, ∃ v, env j = .ok v) :
    ∀ k, (TestRunner.runTests avail env category tests k).1 =
      ((tests.filter
          (fun tc => (TestRunner.findTool avail tc.tool).isSome)).map
        (fun tc => [TestRunner.RunnerEvent.call tc.tool,
                    .delay 1000])).flatten := by
  induction tests with
  | nil => intro k; rfl
  | cons tc rest ih =>
    intro k
    simp only [TestRunner.runTests]
    cases hf : TestRunner.findTool avail tc.tool with
    | none => simp [hf, List.filter_cons, ih k]
    | some tool =>
      have hname := findTool_name avail tc.tool tool hf
      obtain ⟨v, hv⟩ := hok k
      simp [hf, hv, List.filter_cons, ih (k + 1), hname]

/-- The category loop concatenates the per-category calls in listed
order. -/
theorem runCats_calls_in_order (avail : Categorized)
    (env : Nat → Except String JsonVal)
    (cats : List (String × List TestRunner.TestCase)) :
    ∀ k, ((TestRunner.runCats avail env cats k).1.filterMap callName) =
      (((cats.map Prod.snd).flatten.filter
          (fun tc => (TestRunner.findTool avail tc.tool).isSome)).map
        (fun tc => tc.tool)) := by
  induction cats with
  | nil => intro k; rfl
  | cons c rest ih =>
    intro k
    cases c with
    | mk cat tests =>
      simp [TestRunner.runCats, List.filterMap_append,
        runTests_calls_in_order avail env cat tests k,
        ih ((TestRunner.runTests avail env cat tests k).2.2),
        List.filter_append]

/-- The category loop under all-ok outcomes: blocks of call-then-delay in
listed order. -/
theorem runCats_events_all_ok (avail : Categorized)
    (env : Nat → Except String JsonVal)
    (cats : List (String × List TestRunner.TestCase))
    (hok : ∀ j, ∃ v, env j = .ok v) :
    ∀ k, (TestRunner.runCats avail env cats k).1 =
      (((cats.map Prod.snd).flatten.filter
          (fun tc => (TestRunner.findTool avail tc.tool).isSome)).map
        (fun tc => [TestRunner.RunnerEvent.call tc.tool,
                    .delay 1000])).flatten := by
  induction cats with
  | nil => intro k; rfl
  | cons c rest ih =>
    intro k
    cases c with
    | mk cat tests =>
      simp [TestRunner.runCats,
        runTests_events_all_ok avail env cat tests hok k,
        ih ((TestRunner.runTests avail env cat tests k).2.2),
        List.filter_append]

/-- C8 counterexample: with only the first two whatsapp tools available
and the first call throwing, the suite issues two consecutive scripted
calls with no delay between them (the delay only follows the successful
second call), refuting a fixed 1000 ms delay between consecutive calls. -/
theorem C8_counterexample :
    (TestRunner.runAllTests
      ⟨[], [], [⟨"whatsapp_wa_send_text", none, none⟩,
                ⟨"whatsapp_wa_send_template", none, none⟩], []⟩
      (fun k => if k == 0 then .error "rate limit" else .ok .null)).1 =
      [.call "whatsapp_wa_send_text", .call "whatsapp_wa_send_template",
       .delay 1000] := by
  rfl

/-- C8 (amended): the runner replays the canned tests strictly
sequentially in listed order — categories sheets, slides, whatsapp,
forms, tests in array order, skipping tests whose tool is not cached —
and inserts the fixed 1000 ms delay after each successful call (hence
between consecutive calls whenever tests succeed); a throwing call is
followed immediately by the next test. -/
theorem C8_runner_order_and_delays :
    ∀ (avail : Categorized) (env : Nat → Except String JsonVal),
      ((TestRunner.runAllTests avail env).1.filterMap callName =
        scheduledTools avail) ∧
      ((∀ j, ∃ v, env j = .ok v) →
        (TestRunner.runAllTests avail env).1 =
          ((scheduledTools avail).map (fun n =>
            [TestRunner.RunnerEvent.call n, .delay 1000])).flatten) := by
  intro avail env
  constructor
  · show ((TestRunner.runCats avail env TestRunner.testScenarios 0).1.filterMap
      callName) = scheduledTools avail
    rw [runCats_calls_in_order avail env TestRunner.testScenarios 0]
    rfl
  · intro hok
    show (TestRunner.runCats avail env TestRunner.testScenarios 0).1 =
      ((scheduledTools avail).map (fun n =>
        [TestRunner.RunnerEvent.call n, .delay 1000])).flatten
    rw [runCats_events_all_ok avail env TestRunner.testScenarios hok 0]
    unfold scheduledTools
    rw [List.map_map]
    rfl

/-- C8 witness: with one cached tool and all calls succeeding, the suite
is that tool's call followed by the 1000 ms delay. -/
theorem C8_witness :
    (TestRunner.runAllTests
      ⟨[], [], [⟨"whatsapp_wa_send_text", none, none⟩], []⟩
      (fun _ => .ok .null)).1 =
      [.call "whatsapp_wa_send_text", .delay 1000] :=
  ((C8_runner_order_and_delays
      ⟨[], [], [⟨"whatsapp_wa_send_text", none, none⟩], []⟩
      (fun _ => .ok .null)).2 (fun j => ⟨.null, rfl⟩)).trans (by rfl)

end MCPRevised
